import Mathlib

/-!
Verification development for the Ponder indexing framework.

Shallow embedding of the parts of the source relevant to the checked
properties:

* JS string lowercasing (an ASCII model of String.prototype.toLowerCase,
  backing the toLowerCase utility used by the sync layer),
* the schema validator (packages/core/src/schema/schema.ts),
* the start command flow (the start entrypoint),
* the eth_getLogs retry recursion (the _eth_getLogs sync helper),
* the RPC-to-SQLite row conversion functions (rpcToSqliteBlock and friends),
* the SQLite database service setup/kill with the namespace lock
  (implementation absent from the provided sources; modelled from the
  specification, with its test file as the behavioural reference).
-/

/-! ## JS string utilities -/

/-- Modelled from the spec: the toLowerCase utility from utils/lowercase.js is
not in the provided sources; it applies JS String.prototype.toLowerCase, which
on the ASCII range maps code points 65..90 to 97..122 and leaves other
characters unchanged.  lowerChar is that per-character map. -/
def lowerChar (c : Char) : Char :=
  if h : 65 ≤ c.toNat ∧ c.toNat ≤ 90 then
    Char.ofNatAux (c.toNat + 32) (Or.inl (by omega))
  else c

/-- Modelled from the spec: JS String.prototype.toLowerCase restricted to the
ASCII range (addresses and hex data are ASCII). -/
def toLowerCase (s : String) : String := String.mk (s.data.map lowerChar)

/-- ASCII upper-case test for a character. -/
def isUpperAscii (c : Char) : Bool := decide (65 ≤ c.toNat) && decide (c.toNat ≤ 90)

/-- A string is lower-cased when it contains no ASCII upper-case character. -/
def isLowerCased (s : String) : Bool := s.data.all (fun c => !isUpperAscii c)

/-- Lower-casedness lifted to an optional (nullable) string column. -/
def optIsLowerCased : Option String → Bool
  | none => true
  | some s => isLowerCased s

/-- Models the JS expression cond ? f(x) : null for an optional string x,
where absent values and the empty string are falsy. -/
def jsCond (o : Option String) (f : String → String) : Option String :=
  match o with
  | some s => if s = "" then none else some (f s)
  | none => none

/-! ## Schema validation (packages/core/src/schema/schema.ts) -/

/-- Typed error kinds for the schema validator; each constructor stands for one
of the throw sites in the schema function. -/
inductive SchemaError where
  | emptyName
  | invalidNameCharacter
  | enumDuplicateValues
  | missingIdField
  | idWrongType
  | idOptional
  | idList
  | idReference
  | columnReferencesInvalidTable
  | columnTypeMismatch
  | columnRefAndList
  | columnReferencesInvalidEnum
  | columnInvalidType
deriving DecidableEq, Repr

/-- Character class of the source regex [a-z|A-Z|0-9]: note that the literal
character | is a member of the class, exactly as written in the source. -/
def isNameCharJs (c : Char) : Bool :=
  (decide (97 ≤ c.toNat) && decide (c.toNat ≤ 122)) ||
  (decide (65 ≤ c.toNat) && decide (c.toNat ≤ 90)) ||
  (decide (48 ≤ c.toNat) && decide (c.toNat ≤ 57)) ||
  (c == '|')

/-- Embedding of validateTableOrColumnName: rejects the empty string, then
tests the whole key against the source regex (one or more characters, each in
the class [a-z|A-Z|0-9]). -/
def validateTableOrColumnName (key : String) : Except SchemaError Unit :=
  if key = "" then .error .emptyName
  else if !(key.data.all isNameCharJs) then .error .invalidNameCharacter
  else .ok ()

/-- Reference test: does every character of the key lie in A-Z, a-z, 0-9?
This follows the wording of the specification (names match an alphanumeric
pattern) and is compared against the source validator. -/
def isNameCharSpec (c : Char) : Bool :=
  (decide (97 ≤ c.toNat) && decide (c.toNat ≤ 122)) ||
  (decide (65 ≤ c.toNat) && decide (c.toNat ≤ 90)) ||
  (decide (48 ≤ c.toNat) && decide (c.toNat ≤ 57))

/-- String-keyed properties reachable by the JS in operator on a Set instance
(own and inherited: Set.prototype methods, the size accessor, and the
Object.prototype members).  Elements added with set.add live in internal
slots, not properties, so they are never found by the in operator. -/
def setPrototypeKeys : List String :=
  ["add", "clear", "delete", "entries", "forEach", "has", "keys", "size",
   "values", "constructor", "hasOwnProperty", "isPrototypeOf",
   "propertyIsEnumerable", "toLocaleString", "toString", "valueOf",
   "__proto__", "__defineGetter__", "__defineSetter__", "__lookupGetter__",
   "__lookupSetter__"]

/-- Models the JS expression val in set for a Set object: the in operator
tests property keys (own and inherited), not set membership. -/
def jsInSetObject (key : String) : Bool := setPrototypeKeys.contains key

/-- Embedding of the enum-value loop in the schema function: for each value,
the source evaluates val in set and throws on true, then calls set.add(val).
The accumulated elements (setElems) are threaded to mirror set.add, but the
in operator never consults them, only the property keys of the Set object. -/
def enumCheckLoop (setElems : List String) : List String → Except SchemaError Unit
  | [] => .ok ()
  | v :: vs =>
    if jsInSetObject v then .error .enumDuplicateValues
    else enumCheckLoop (setElems ++ [v]) vs

/-- Embedding of the duplicate-value check the schema function runs on an
enum entry. -/
def validateEnumValues (values : List String) : Except SchemaError Unit :=
  enumCheckLoop [] values

/-- Runtime shape of a column produced by the column builder: a type tag
(scalar name or an enum:Name string), an optional references target, and the
optional and list modifiers. -/
structure ColumnDef where
  type : String
  references : Option String
  optional : Bool
  list : Bool
deriving DecidableEq, Repr

/-- Runtime shape of one schema entry: a table (isEnum false, holding its
columns) or an enum (isEnum true, holding its values). -/
inductive SchemaEntry where
  | tableDef (columns : List (String × ColumnDef))
  | enumDef (values : List String)
deriving DecidableEq, Repr

/-- Embedding of referencedEntityName: the text before the first dot of the
references string. -/
def referencedEntityName (references : String) : String :=
  (references.splitOn ".").headD ""

/-- Embedding of isEnumType: the type string starts with the five characters
enum: (the source compares type.slice(0, 5)). -/
def isEnumTypeStr (t : String) : Bool := t.take 5 == "enum:"

/-- Scalar column types accepted by the source column check. -/
def scalarOk (t : String) : Bool :=
  t == "bigint" || t == "string" || t == "boolean" || t == "int" ||
  t == "float" || t == "bytes"

/-- Identifies enum entries (mirrors the isEnum discriminant). -/
def isEnumEntry : SchemaEntry → Bool
  | .enumDef _ => true
  | .tableDef _ => false

/-- The id column type of an entry, when the entry is a table that has an id
column.  (The source reads table.table.id.type; for an enum entry that access
fails at runtime, which the total model folds into the mismatch error.) -/
def entryIdType : SchemaEntry → Option String
  | .tableDef columns => (columns.lookup "id").map (fun c => c.type)
  | .enumDef _ => none

/-- Embedding of the per-column validation in the schema function (the body of
the inner forEach, after the id column was skipped): reference columns must
name another entry id, must type-match every entry of that name, and must not
also be lists; enum columns must name a declared enum; other columns must be
scalars. -/
def validateColumn (entries : List (String × SchemaEntry)) (tableName : String)
    (col : ColumnDef) : Except SchemaError Unit :=
  match col.references with
  | some ref =>
    if (entries.filter (fun e => e.1 ≠ tableName)).all
        (fun e => e.1 ++ ".id" ≠ ref) then
      .error .columnReferencesInvalidTable
    else
      let referencingTables := entries.filter
        (fun e => e.1 = referencedEntityName ref)
      if referencingTables.all (fun e => entryIdType e.2 = some col.type) then
        if col.list then .error .columnRefAndList else .ok ()
      else .error .columnTypeMismatch
  | none =>
    if isEnumTypeStr col.type then
      if (entries.filter (fun e => isEnumEntry e.2)).all
          (fun e => e.1 ≠ col.type.drop 5) then
        .error .columnReferencesInvalidEnum
      else .ok ()
    else if !scalarOk col.type then .error .columnInvalidType
    else .ok ()

/-- Embedding of the column loop of a table entry: each non-id column name is
validated and then checked by validateColumn; the id column is skipped before
its name is validated, as in the source. -/
def validateColumns (entries : List (String × SchemaEntry)) (tableName : String) :
    List (String × ColumnDef) → Except SchemaError Unit
  | [] => .ok ()
  | (columnName, col) :: rest =>
    if columnName = "id" then validateColumns entries tableName rest
    else
      match validateTableOrColumnName columnName with
      | .error e => .error e
      | .ok _ =>
        match validateColumn entries tableName col with
        | .error e => .error e
        | .ok _ => validateColumns entries tableName rest

/-- Embedding of the table-entry validation in the schema function: the id
column must exist, have one of the four id types, and carry none of the
optional, list, or references modifiers; then the remaining columns are
checked. -/
def validateTable (entries : List (String × SchemaEntry)) (tableName : String)
    (columns : List (String × ColumnDef)) : Except SchemaError Unit :=
  match columns.lookup "id" with
  | none => .error .missingIdField
  | some idCol =>
    if idCol.type ≠ "bigint" ∧ idCol.type ≠ "string" ∧ idCol.type ≠ "bytes" ∧
        idCol.type ≠ "int" then .error .idWrongType
    else if idCol.optional then .error .idOptional
    else if idCol.list then .error .idList
    else if idCol.references.isSome then .error .idReference
    else validateColumns entries tableName columns

/-- Embedding of the validation of one schema entry: its name first, then the
enum or table body. -/
def validateEntry (entries : List (String × SchemaEntry)) :
    String × SchemaEntry → Except SchemaError Unit
  | (name, e) =>
    match validateTableOrColumnName name with
    | .error err => .error err
    | .ok _ =>
      match e with
      | .enumDef values => validateEnumValues values
      | .tableDef columns => validateTable entries name columns

/-- Embedding of the runtime validation performed by the schema function: the
entries are visited in order and the first thrown error aborts. -/
def schemaValidate (entries : List (String × SchemaEntry)) :
    Except SchemaError Unit :=
  entries.forM (validateEntry entries)

/-! ## The start command flow (the start entrypoint) -/

/-- Status of the initial build returned by the build service. -/
inductive BuildStatus where
  | success
  | failure
deriving DecidableEq, Repr

/-- Observable outcome of one run of the start function: whether a fatal log
was written before exiting, the process exit code (none when the process keeps
running), the shutdown reason passed to the shutdown helper, whether the build
service was created, and whether the indexing engine (run) was started. -/
structure StartOutcome where
  fatalLogged : Bool
  exitCode : Option Nat
  shutdownReason : Option String
  buildServiceCreated : Bool
  runStarted : Bool
deriving DecidableEq, Repr

/-- Embedding of the Node.js version guard in start: the detected version is
rejected when major < 18, or major = 18 and minor < 14. -/
def nodeVersionTooLow (major minor : Nat) : Bool :=
  decide (major < 18) || (major == 18 && decide (minor < 14))

/-- Embedding of the control flow of the start function: the version guard
logs fatal and exits with code 1 before the build service is created; a failed
initial build shuts down with code 1 and the literal reason string written in
the source; otherwise the engine is started via run. -/
def start (major minor : Nat) (initialBuildStatus : BuildStatus) : StartOutcome :=
  if nodeVersionTooLow major minor then
    { fatalLogged := true, exitCode := some 1, shutdownReason := none,
      buildServiceCreated := false, runStarted := false }
  else
    match initialBuildStatus with
    | .failure =>
      { fatalLogged := false, exitCode := some 1,
        shutdownReason := some "Failed intial build",
        buildServiceCreated := true, runStarted := false }
    | .success =>
      { fatalLogged := false, exitCode := none, shutdownReason := none,
        buildServiceCreated := true, runStarted := true }

/-! ## The eth_getLogs retry recursion (the _eth_getLogs sync helper) -/

/-- Address parameter of an eth_getLogs request: absent, a single address, or
an array of addresses (the source distinguishes the two shapes only to map
toLowerCase over them). -/
inductive AddressParam where
  | noAddress
  | single (a : String)
  | many (addrs : List String)
deriving DecidableEq, Repr

/-- Lower-casing of the address parameter, as built by the source before the
request is sent. -/
def lowerAddressParam : AddressParam → AddressParam
  | .noAddress => .noAddress
  | .single a => .single (toLowerCase a)
  | .many addrs => .many (addrs.map toLowerCase)

/-- Block-range arguments accepted by the _eth_getLogs helper (the blockHash
form takes a disjoint code path without retries and is not needed here).
Topics are carried opaquely; a list entry of none stands for a null topic. -/
structure GetLogsRangeParams where
  fromBlock : Nat
  toBlock : Nat
  address : AddressParam
  topics : List (Option String)
deriving DecidableEq, Repr

/-- The raw request the helper hands to the request queue: same range and
topics, address lower-cased. -/
structure GetLogsRawRequest where
  fromBlock : Nat
  toBlock : Nat
  address : AddressParam
  topics : List (Option String)
deriving DecidableEq, Repr

/-- Builds the raw eth_getLogs request from the helper arguments, mirroring
the _params object of the source. -/
def toRawRequest (p : GetLogsRangeParams) : GetLogsRawRequest :=
  { fromBlock := p.fromBlock, toBlock := p.toBlock,
    address := lowerAddressParam p.address, topics := p.topics }

/-- Answer of the external getLogsRetryHelper library call: whether the failed
request should be retried, and the proposed list of sub-ranges. -/
structure RetryRanges where
  shouldRetry : Bool
  ranges : List (Nat × Nat)
deriving DecidableEq, Repr

/-- Arguments of one recursive _eth_getLogs call for a proposed sub-range: the
proposed blocks together with the failed request's address and topics (the
source passes the already lower-cased address of _params onward). -/
def subRangeParams (p : GetLogsRangeParams) (r : Nat × Nat) : GetLogsRangeParams :=
  { fromBlock := r.1, toBlock := r.2,
    address := lowerAddressParam p.address, topics := p.topics }

/-- Embedding of the _eth_getLogs helper for block-range requests.  The
request queue and the retry helper are external collaborators and enter as
function parameters.  On failure the retry helper is consulted: a
non-retryable error is rethrown; otherwise one recursive call per proposed
sub-range is issued and the results are flattened in order.  The source
recursion is unbounded; the fuel argument bounds the modelled depth, and at
exhausted fuel the raw request result is returned without retrying. -/
def _eth_getLogs {L E : Type} (request : GetLogsRawRequest → Except E (List L))
    (retryHelper : GetLogsRawRequest → E → RetryRanges) :
    Nat → GetLogsRangeParams → Except E (List L)
  | 0, p => request (toRawRequest p)
  | fuel + 1, p =>
    match request (toRawRequest p) with
    | .ok logs => .ok logs
    | .error err =>
      if (retryHelper (toRawRequest p) err).shouldRetry then
        (((retryHelper (toRawRequest p) err).ranges).mapM
          (fun r => _eth_getLogs request retryHelper fuel (subRangeParams p r))).map
          List.flatten
      else .error err

/-- Concrete request oracle for exercising the retry recursion: the range
0..10 fails, every other range answers with its two endpoints. -/
def demoRequest (q : GetLogsRawRequest) : Except Unit (List Nat) :=
  if q.fromBlock = 0 ∧ q.toBlock = 10 then .error ()
  else .ok [q.fromBlock, q.toBlock]

/-- Concrete retry helper for exercising the retry recursion: always proposes
the split 0..5 and 6..10. -/
def demoRetryHelper (_ : GetLogsRawRequest) (_ : Unit) : RetryRanges :=
  { shouldRetry := true, ranges := [(0, 5), (6, 10)] }

/-- Concrete argument for exercising the retry recursion. -/
def demoParams : GetLogsRangeParams :=
  { fromBlock := 0, toBlock := 10, address := AddressParam.single "0xAbCd",
    topics := [some "0xEvent", none] }

/-! ## RPC to SQLite row conversions (the sync-store format module) -/

/-- Modelled from the spec: encodeAsText from utils/encoding.js is not in the
provided sources; per the specification it encodes a 256-bit quantity as
fixed-width (79 characters) zero-padded decimal text.  The hex quantity is
parsed and padded. -/
def hexDigitVal (c : Char) : Nat :=
  if 48 ≤ c.toNat ∧ c.toNat ≤ 57 then c.toNat - 48
  else if 97 ≤ c.toNat ∧ c.toNat ≤ 102 then c.toNat - 87
  else if 65 ≤ c.toNat ∧ c.toNat ≤ 70 then c.toNat - 55
  else 0

/-- Modelled from the spec: numeric value of a 0x-prefixed hex quantity (the
viem helpers hexToBigInt and hexToNumber, external to the core). -/
def hexToNat (s : String) : Nat :=
  let t := if s.startsWith "0x" then s.drop 2 else s
  t.data.foldl (fun acc c => acc * 16 + hexDigitVal c) 0

/-- Modelled from the spec: BigInt values are persisted as zero-padded decimal
text of fixed width 79 so that byte order equals numeric order. -/
def encodeAsText (s : String) : String :=
  let d := toString (hexToNat s)
  String.mk (List.replicate (79 - d.length) '0') ++ d

/-- Input shape of rpcToSqliteBlock: the fields of an RPC block the conversion
reads.  Hex quantities and identifiers are strings; nullable fields are
options. -/
structure RpcBlock where
  baseFeePerGas : Option String
  difficulty : String
  extraData : String
  gasLimit : String
  gasUsed : String
  hash : String
  logsBloom : String
  miner : String
  mixHash : Option String
  nonce : Option String
  number : String
  parentHash : String
  receiptsRoot : String
  sha3Uncles : Option String
  size : String
  stateRoot : String
  timestamp : String
  totalDifficulty : Option String
  transactionsRoot : String
deriving DecidableEq, Repr

/-- Row shape of the blocks table produced by rpcToSqliteBlock. -/
structure SqliteBlock where
  baseFeePerGas : Option String
  difficulty : String
  extraData : String
  gasLimit : String
  gasUsed : String
  hash : String
  logsBloom : String
  miner : String
  mixHash : Option String
  nonce : Option String
  number : String
  parentHash : String
  receiptsRoot : String
  sha3Uncles : Option String
  size : String
  stateRoot : String
  timestamp : String
  totalDifficulty : Option String
  transactionsRoot : String
deriving DecidableEq, Repr

/-- Embedding of rpcToSqliteBlock: quantities are encoded as padded decimal
text, the miner address is lower-cased, nullable header fields pass through
(the source uses nullish coalescing for mixHash, nonce and sha3Uncles, and
truthiness tests for baseFeePerGas and totalDifficulty). -/
def rpcToSqliteBlock (block : RpcBlock) : SqliteBlock :=
  { baseFeePerGas := jsCond block.baseFeePerGas encodeAsText,
    difficulty := encodeAsText block.difficulty,
    extraData := block.extraData,
    gasLimit := encodeAsText block.gasLimit,
    gasUsed := encodeAsText block.gasUsed,
    hash := block.hash,
    logsBloom := block.logsBloom,
    miner := toLowerCase block.miner,
    mixHash := block.mixHash,
    nonce := block.nonce,
    number := encodeAsText block.number,
    parentHash := block.parentHash,
    receiptsRoot := block.receiptsRoot,
    sha3Uncles := block.sha3Uncles,
    size := encodeAsText block.size,
    stateRoot := block.stateRoot,
    timestamp := encodeAsText block.timestamp,
    totalDifficulty := jsCond block.totalDifficulty encodeAsText,
    transactionsRoot := block.transactionsRoot }

/-- Input shape of rpcToSqliteTransaction.  The accessList field carries the
JSON serialization the source produces with JSON.stringify; fromAddress and
toAddress stand for the source fields named from and to (Lean keywords). -/
structure RpcTransaction where
  accessList : Option String
  blockHash : String
  blockNumber : String
  fromAddress : String
  gas : String
  gasPrice : Option String
  hash : String
  input : String
  maxFeePerGas : Option String
  maxPriorityFeePerGas : Option String
  nonce : String
  r : Option String
  s : Option String
  toAddress : Option String
  transactionIndex : String
  type : Option String
  value : String
  v : Option String
deriving DecidableEq, Repr

/-- Row shape of the transactions table produced by rpcToSqliteTransaction. -/
structure SqliteTransaction where
  accessList : Option String
  blockHash : String
  blockNumber : String
  fromAddress : String
  gas : String
  gasPrice : Option String
  hash : String
  input : String
  maxFeePerGas : Option String
  maxPriorityFeePerGas : Option String
  nonce : Nat
  r : Option String
  s : Option String
  toAddress : Option String
  transactionIndex : Nat
  type : String
  value : String
  v : Option String
deriving DecidableEq, Repr

/-- Embedding of rpcToSqliteTransaction: the from and to addresses are
lower-cased, quantities are encoded as padded decimal text, the nonce becomes
a number, the type defaults to 0x0 via nullish coalescing, and r/s pass
through with nullish coalescing. -/
def rpcToSqliteTransaction (transaction : RpcTransaction) : SqliteTransaction :=
  { accessList := transaction.accessList,
    blockHash := transaction.blockHash,
    blockNumber := encodeAsText transaction.blockNumber,
    fromAddress := toLowerCase transaction.fromAddress,
    gas := encodeAsText transaction.gas,
    gasPrice := jsCond transaction.gasPrice encodeAsText,
    hash := transaction.hash,
    input := transaction.input,
    maxFeePerGas := jsCond transaction.maxFeePerGas encodeAsText,
    maxPriorityFeePerGas := jsCond transaction.maxPriorityFeePerGas encodeAsText,
    nonce := hexToNat transaction.nonce,
    r := transaction.r,
    s := transaction.s,
    toAddress := jsCond transaction.toAddress toLowerCase,
    transactionIndex := hexToNat transaction.transactionIndex,
    type := transaction.type.getD "0x0",
    value := encodeAsText transaction.value,
    v := jsCond transaction.v encodeAsText }

/-- Input shape of rpcToSqliteTransactionReceipt.  The logs field carries the
JSON serialization the source produces with JSON.stringify; fromAddress and
toAddress stand for the source fields named from and to. -/
structure RpcTransactionReceipt where
  blockHash : String
  blockNumber : String
  contractAddress : Option String
  cumulativeGasUsed : String
  effectiveGasPrice : String
  fromAddress : String
  gasUsed : String
  logs : String
  logsBloom : String
  status : String
  toAddress : Option String
  transactionHash : String
  transactionIndex : String
  type : String
deriving DecidableEq, Repr

/-- Row shape of the transactionReceipts table produced by
rpcToSqliteTransactionReceipt. -/
structure SqliteTransactionReceipt where
  blockHash : String
  blockNumber : String
  contractAddress : Option String
  cumulativeGasUsed : String
  effectiveGasPrice : String
  fromAddress : String
  gasUsed : String
  logs : String
  logsBloom : String
  status : String
  toAddress : Option String
  transactionHash : String
  transactionIndex : Nat
  type : String
deriving DecidableEq, Repr

/-- Embedding of rpcToSqliteTransactionReceipt: the from, to and
contractAddress addresses are lower-cased (the two nullable ones behind
truthiness tests), quantities are encoded as padded decimal text. -/
def rpcToSqliteTransactionReceipt (transactionReceipt : RpcTransactionReceipt) :
    SqliteTransactionReceipt :=
  { blockHash := transactionReceipt.blockHash,
    blockNumber := encodeAsText transactionReceipt.blockNumber,
    contractAddress := jsCond transactionReceipt.contractAddress toLowerCase,
    cumulativeGasUsed := encodeAsText transactionReceipt.cumulativeGasUsed,
    effectiveGasPrice := encodeAsText transactionReceipt.effectiveGasPrice,
    fromAddress := toLowerCase transactionReceipt.fromAddress,
    gasUsed := encodeAsText transactionReceipt.gasUsed,
    logs := transactionReceipt.logs,
    logsBloom := transactionReceipt.logsBloom,
    status := transactionReceipt.status,
    toAddress := jsCond transactionReceipt.toAddress toLowerCase,
    transactionHash := transactionReceipt.transactionHash,
    transactionIndex := hexToNat transactionReceipt.transactionIndex,
    type := transactionReceipt.type }

/-- Input shape of rpcToSqliteLog: the log fields the conversion reads, with
the log index kept as the hex text the source interpolates into the row id. -/
structure RpcLog where
  address : String
  blockHash : String
  blockNumber : String
  data : String
  logIndex : String
  topics : List String
  transactionHash : String
  transactionIndex : String
deriving DecidableEq, Repr

/-- Row shape of the logs table produced by rpcToSqliteLog. -/
structure SqliteLog where
  address : String
  blockHash : String
  blockNumber : String
  data : String
  id : String
  logIndex : Nat
  topic0 : Option String
  topic1 : Option String
  topic2 : Option String
  topic3 : Option String
  transactionHash : String
  transactionIndex : Nat
deriving DecidableEq, Repr

/-- Embedding of rpcToSqliteLog: the log address is lower-cased, the row id is
the blockHash and the hex log index joined by a dash, and each of the first
four topics is kept when present and truthy, else null. -/
def rpcToSqliteLog (log : RpcLog) : SqliteLog :=
  { address := toLowerCase log.address,
    blockHash := log.blockHash,
    blockNumber := encodeAsText log.blockNumber,
    data := log.data,
    id := log.blockHash ++ "-" ++ log.logIndex,
    logIndex := hexToNat log.logIndex,
    topic0 := jsCond (log.topics.get? 0) id,
    topic1 := jsCond (log.topics.get? 1) id,
    topic2 := jsCond (log.topics.get? 2) id,
    topic3 := jsCond (log.topics.get? 3) id,
    transactionHash := log.transactionHash,
    transactionIndex := hexToNat log.transactionIndex }

/-! ## Database service and namespace lock (modelled from the specification;
the SQLite service implementation is exercised only through its test file in
the provided sources) -/

/-- A position in multi-chain history, compared lexicographically. -/
structure Checkpoint where
  blockTimestamp : Nat
  chainId : Nat
  blockNumber : Nat
  transactionIndex : Nat
  eventIndex : Nat
deriving DecidableEq, Repr

/-- The all-zero checkpoint. -/
def zeroCheckpoint : Checkpoint :=
  { blockTimestamp := 0, chainId := 0, blockNumber := 0,
    transactionIndex := 0, eventIndex := 0 }

/-- Modelled from the spec: the namespace_lock row.  nsName stands for the
namespace column (a Lean keyword); schema_tables carries the table names of
the persisted schema_json. -/
structure NamespaceLockRow where
  nsName : String
  is_locked : Nat
  heartbeat_at : Nat
  build_id : String
  finalized_checkpoint : Checkpoint
  schema_tables : List String
deriving DecidableEq, Repr

/-- Modelled from the spec: the observable database state the setup and kill
operations act on: the lock rows, the user-visible tables per namespace (in
creation order, as the listing of the test file reads them), the hash-named
physical tables, and the cache entries per build ID with their common
checkpoint. -/
structure DatabaseState where
  locks : List NamespaceLockRow
  userTables : List (String × String)
  physicalTables : List String
  cacheTables : List (String × List String × Checkpoint)
deriving DecidableEq, Repr

/-- The empty (fresh) database. -/
def emptyDatabase : DatabaseState :=
  { locks := [], userTables := [], physicalTables := [], cacheTables := [] }

/-- Modelled from the spec: the default lease TTL of 60 seconds, in
milliseconds. -/
def leaseTtl : Nat := 60000

/-- Modelled from the spec: the physical table name hash(namespace, buildId,
tableName); the concrete content hash is external, so it is modelled as an
injective tagged concatenation. -/
def hashTableName (nsName buildId tableName : String) : String :=
  "ponder_" ++ nsName ++ "_" ++ buildId ++ "_" ++ tableName

/-- Lock-row lookup on a list of rows. -/
def lockFind (nsName : String) (rows : List NamespaceLockRow) :
    Option NamespaceLockRow :=
  rows.find? (fun r => r.nsName == nsName)

/-- The lock row of a namespace, when present. -/
def findLockRow (nsName : String) (st : DatabaseState) :
    Option NamespaceLockRow :=
  lockFind nsName st.locks

/-- Writes a lock row for its namespace (the single-row transaction of the
lock table): any previous row of that namespace is replaced. -/
def setLockRow (row : NamespaceLockRow) (st : DatabaseState) : DatabaseState :=
  { st with locks := row :: st.locks.filter (fun r => !(r.nsName == row.nsName)) }

/-- A user-visible table is Ponder-managed when the lock row metadata of its
namespace lists it and its hash-named physical table exists. -/
def ponderManaged (st : DatabaseState) (nsName tableName : String) : Bool :=
  match findLockRow nsName st with
  | some row =>
    row.schema_tables.contains tableName &&
    st.physicalTables.contains (hashTableName nsName row.build_id tableName)
  | none => false

/-- Modelled from the spec: on acquiring the lock over a different build,
setup drops exactly the tables of the prior build: the user-visible tables the
prior lock row metadata lists (with their hash-named physical tables), and
nothing else. -/
def dropPonderTables (row : NamespaceLockRow) (st : DatabaseState) : DatabaseState :=
  { st with
    userTables := st.userTables.filter (fun p =>
      !(p.1 == row.nsName && row.schema_tables.contains p.2 &&
        st.physicalTables.contains (hashTableName row.nsName row.build_id p.2))),
    physicalTables := st.physicalTables.filter (fun t =>
      !((row.schema_tables.map
          (fun name => hashTableName row.nsName row.build_id name)).contains t)) }

/-- Typed error kinds of the setup operation. -/
inductive SetupError where
  | namespaceLocked (nsName : String) (msUntilExpiry : Nat)
  | tableCollision (nsName tableName : String)
deriving DecidableEq, Repr

/-- Arguments of the setup operation: the table names of the build schema, the
build ID, and the user namespace (default public). -/
structure SetupArgs where
  schemaTables : List String
  buildId : String
  nsName : String
deriving DecidableEq, Repr

/-- Modelled from the spec: creation of the live tables of a build, one
hash-named physical table plus one user-friendly view per schema table; a
pre-existing user-visible table of the same name is a collision error. -/
def createTables (nsName buildId : String) :
    List String → DatabaseState → Except SetupError DatabaseState
  | [], st => .ok st
  | t :: ts, st =>
    if (nsName, t) ∈ st.userTables then .error (.tableCollision nsName t)
    else
      createTables nsName buildId ts
        { st with
          userTables := st.userTables ++ [(nsName, t)],
          physicalTables := st.physicalTables ++ [hashTableName nsName buildId t] }

/-- Modelled from the spec: the setup operation of the database service.  In
one transaction on the lock table: acquire the lock when there is no row, the
row is unlocked, or its heartbeat is older than the lease TTL, and fail with
NamespaceLocked otherwise; with the lock held, reuse the tables and return the
finalized checkpoint when the build ID and schema match the prior row, else
copy from the cache when a cache entry for the build ID exists, else create
fresh live tables, returning the zero checkpoint. -/
def setup (now : Nat) (args : SetupArgs) (st : DatabaseState) :
    Except SetupError (Checkpoint × DatabaseState) :=
  match findLockRow args.nsName st with
  | none =>
    let row : NamespaceLockRow :=
      { nsName := args.nsName, is_locked := 1, heartbeat_at := now,
        build_id := args.buildId, finalized_checkpoint := zeroCheckpoint,
        schema_tables := args.schemaTables }
    (createTables args.nsName args.buildId args.schemaTables
      (setLockRow row st)).map (fun st2 => (zeroCheckpoint, st2))
  | some row =>
    if row.is_locked = 1 ∧ now - row.heartbeat_at ≤ leaseTtl then
      .error (.namespaceLocked args.nsName (leaseTtl - (now - row.heartbeat_at)))
    else if row.build_id = args.buildId ∧ row.schema_tables = args.schemaTables then
      .ok (row.finalized_checkpoint,
        setLockRow { row with is_locked := 1, heartbeat_at := now } st)
    else
      match st.cacheTables.find? (fun c => c.1 == args.buildId) with
      | some centry =>
        let row2 : NamespaceLockRow :=
          { nsName := args.nsName, is_locked := 1, heartbeat_at := now,
            build_id := args.buildId, finalized_checkpoint := centry.2.2,
            schema_tables := args.schemaTables }
        (createTables args.nsName args.buildId args.schemaTables
          (setLockRow row2 (dropPonderTables row st))).map
          (fun st2 => (centry.2.2, st2))
      | none =>
        let row2 : NamespaceLockRow :=
          { nsName := args.nsName, is_locked := 1, heartbeat_at := now,
            build_id := args.buildId, finalized_checkpoint := zeroCheckpoint,
            schema_tables := args.schemaTables }
        (createTables args.nsName args.buildId args.schemaTables
          (setLockRow row2 (dropPonderTables row st))).map
          (fun st2 => (zeroCheckpoint, st2))

/-- Modelled from the spec: the kill operation releases the lock by updating
the namespace row to is_locked = 0 (the cache flush touches only cache rows
and is outside this state). -/
def kill (nsName : String) (st : DatabaseState) : DatabaseState :=
  match findLockRow nsName st with
  | some row => setLockRow { row with is_locked := 0 } st
  | none => st

/-- The user-visible table names of a namespace, in creation order (what the
test file reads from sqlite_master of the attached namespace database). -/
def userTablesIn (nsName : String) (st : DatabaseState) : List String :=
  (st.userTables.filter (fun p => p.1 == nsName)).map (fun p => p.2)

/-- An externally issued CREATE TABLE in a user namespace: the table appears
in the namespace listing but has no Ponder metadata. -/
def extCreateTable (nsName tableName : String) (st : DatabaseState) : DatabaseState :=
  { st with userTables := st.userTables ++ [(nsName, tableName)] }

/-- Table names of the first scenario schema (Pet and Person). -/
def schemaOneTables : List String := ["Pet", "Person"]

/-- Table names of the second scenario schema (Dog and Apple). -/
def schemaTwoTables : List String := ["Dog", "Apple"]

/-- Setup arguments of instance A in the scenarios: first schema, build ID
abc, namespace public. -/
def argsA : SetupArgs :=
  { schemaTables := schemaOneTables, buildId := "abc", nsName := "public" }

/-- Setup arguments of instance B in the scenarios: second schema, build ID
def, namespace public. -/
def argsB : SetupArgs :=
  { schemaTables := schemaTwoTables, buildId := "def", nsName := "public" }

/-- The lock row instance A holds after its setup at time t0. -/
def lockRowA (t0 : Nat) : NamespaceLockRow :=
  { nsName := "public", is_locked := 1, heartbeat_at := t0, build_id := "abc",
    finalized_checkpoint := zeroCheckpoint, schema_tables := schemaOneTables }

/-- The database state after instance A set up build abc at time t0 on a
fresh database. -/
def stAfterA (t0 : Nat) : DatabaseState :=
  { locks := [lockRowA t0],
    userTables := [("public", "Pet"), ("public", "Person")],
    physicalTables := [hashTableName "public" "abc" "Pet",
                       hashTableName "public" "abc" "Person"],
    cacheTables := [] }

/-- Scenario state for the preservation claim: after the abc build was set up
at time 0 and killed, two non-Ponder tables were created externally in the
public namespace. -/
def stScenario : DatabaseState :=
  extCreateTable "public" "AnotherTable"
    (extCreateTable "public" "not_a_ponder_table" (kill "public" (stAfterA 0)))

/-- Database state after build def is set up at time 5 over stScenario. -/
def stScenarioAfter : DatabaseState :=
  { locks := [{ nsName := "public", is_locked := 1, heartbeat_at := 5,
                build_id := "def", finalized_checkpoint := zeroCheckpoint,
                schema_tables := schemaTwoTables }],
    userTables := [("public", "not_a_ponder_table"), ("public", "AnotherTable"),
                   ("public", "Dog"), ("public", "Apple")],
    physicalTables := [hashTableName "public" "def" "Dog",
                       hashTableName "public" "def" "Apple"],
    cacheTables := [] }

/-- Database state after build def is set up at time t over the expired
state of instance A: the prior build tables are dropped and Dog and Apple
created. -/
def stAfterB (t : Nat) : DatabaseState :=
  { locks := [{ nsName := "public", is_locked := 1, heartbeat_at := t,
                build_id := "def", finalized_checkpoint := zeroCheckpoint,
                schema_tables := schemaTwoTables }],
    userTables := [("public", "Dog"), ("public", "Apple")],
    physicalTables := [hashTableName "public" "def" "Dog",
                       hashTableName "public" "def" "Apple"],
    cacheTables := [] }

/-! ## Supporting lemmas -/

theorem toNat_lowerChar_of_upper (c : Char) (h : 65 ≤ c.toNat ∧ c.toNat ≤ 90) :
    (lowerChar c).toNat = c.toNat + 32 := by
  unfold lowerChar
  rw [dif_pos h]
  rfl

theorem lowerChar_of_not_upper (c : Char) (h : ¬ (65 ≤ c.toNat ∧ c.toNat ≤ 90)) :
    lowerChar c = c := by
  unfold lowerChar
  rw [dif_neg h]

theorem isUpperAscii_lowerChar (c : Char) : isUpperAscii (lowerChar c) = false := by
  by_cases h : 65 ≤ c.toNat ∧ c.toNat ≤ 90
  · have h2 := toNat_lowerChar_of_upper c h
    simp only [isUpperAscii, Bool.and_eq_false_iff, decide_eq_false_iff_not]
    omega
  · rw [lowerChar_of_not_upper c h]
    simp only [isUpperAscii, Bool.and_eq_false_iff, decide_eq_false_iff_not]
    omega

theorem isLowerCased_toLowerCase (s : String) :
    isLowerCased (toLowerCase s) = true := by
  simp only [isLowerCased, toLowerCase, List.all_eq_true, List.mem_map]
  rintro c ⟨a, _, rfl⟩
  simp [isUpperAscii_lowerChar]

theorem optIsLowerCased_jsCond_toLowerCase (o : Option String) :
    optIsLowerCased (jsCond o toLowerCase) = true := by
  cases o with
  | none => rfl
  | some s =>
    by_cases hs : s = ""
    · simp [jsCond, hs, optIsLowerCased]
    · simp [jsCond, hs, optIsLowerCased, isLowerCased_toLowerCase]

theorem except_map_ok {ε α β : Type} {f : α → β} {e : Except ε α} {b : β}
    (h : e.map f = Except.ok b) : ∃ a, e = Except.ok a ∧ f a = b := by
  cases e with
  | error err => simp [Except.map] at h
  | ok a =>
    refine ⟨a, rfl, ?_⟩
    simpa [Except.map] using h

theorem createTables_locks (nsName buildId : String) :
    ∀ (ts : List String) (st st2 : DatabaseState),
    createTables nsName buildId ts st = Except.ok st2 → st2.locks = st.locks := by
  intro ts
  induction ts with
  | nil =>
    intro st st2 h
    simp only [createTables] at h
    cases h
    rfl
  | cons t rest ih =>
    intro st st2 h
    simp only [createTables] at h
    by_cases hmem : (nsName, t) ∈ st.userTables
    · rw [if_pos hmem] at h
      cases h
    · rw [if_neg hmem] at h
      rw [ih _ _ h]

theorem createTables_mem (nsName buildId : String) :
    ∀ (ts : List String) (st st2 : DatabaseState) (p : String × String),
    createTables nsName buildId ts st = Except.ok st2 →
    p ∈ st.userTables → p ∈ st2.userTables := by
  intro ts
  induction ts with
  | nil =>
    intro st st2 p h hp
    simp only [createTables] at h
    cases h
    exact hp
  | cons t rest ih =>
    intro st st2 p h hp
    simp only [createTables] at h
    by_cases hmem : (nsName, t) ∈ st.userTables
    · rw [if_pos hmem] at h
      cases h
    · rw [if_neg hmem] at h
      exact ih _ _ p h (List.mem_append_left _ hp)

theorem createTables_creates (nsName buildId : String) :
    ∀ (ts : List String) (st st2 : DatabaseState),
    createTables nsName buildId ts st = Except.ok st2 →
    ∀ t ∈ ts, (nsName, t) ∈ st2.userTables := by
  intro ts
  induction ts with
  | nil =>
    intro st st2 h t ht
    cases ht
  | cons t0 rest ih =>
    intro st st2 h t ht
    simp only [createTables] at h
    by_cases hmem : (nsName, t0) ∈ st.userTables
    · rw [if_pos hmem] at h
      cases h
    · rw [if_neg hmem] at h
      rcases List.mem_cons.mp ht with rfl | htr
      · refine createTables_mem nsName buildId rest _ _ _ h ?_
        exact List.mem_append_right _ (List.mem_singleton.mpr rfl)
      · exact ih _ _ h t htr

theorem lockFind_cons_self (n : String) (row : NamespaceLockRow)
    (rows : List NamespaceLockRow) (hn : row.nsName = n) :
    lockFind n (row :: rows) = some row := by
  unfold lockFind
  exact List.find?_cons_of_pos _ (by simp [hn])

theorem findLockRow_setLockRow (n : String) (row : NamespaceLockRow)
    (st : DatabaseState) (hn : row.nsName = n) :
    findLockRow n (setLockRow row st) = some row := by
  unfold findLockRow setLockRow
  exact lockFind_cons_self n row _ hn

theorem findLockRow_eq_some_nsName (n : String) (st : DatabaseState)
    (row : NamespaceLockRow) (h : findLockRow n st = some row) :
    row.nsName = n := by
  have h2 : st.locks.find? (fun r => r.nsName == n) = some row := h
  have h3 := List.find?_some h2
  simpa using h3

theorem setup_locked (now : Nat) (args : SetupArgs) (st : DatabaseState)
    (row : NamespaceLockRow) (hfind : findLockRow args.nsName st = some row)
    (hlock : row.is_locked = 1) (hfresh : now - row.heartbeat_at ≤ leaseTtl) :
    setup now args st =
      Except.error
        (SetupError.namespaceLocked args.nsName
          (leaseTtl - (now - row.heartbeat_at))) := by
  unfold setup
  split
  · rename_i heq
    rw [hfind] at heq
    simp at heq
  · rename_i row2 heq
    rw [hfind] at heq
    injection heq with h2
    subst h2
    rw [if_pos ⟨hlock, hfresh⟩]

theorem setup_expired_fresh (now : Nat) (args : SetupArgs) (st : DatabaseState)
    (row : NamespaceLockRow) (hfind : findLockRow args.nsName st = some row)
    (hstale : ¬ (row.is_locked = 1 ∧ now - row.heartbeat_at ≤ leaseTtl))
    (hdiff : ¬ (row.build_id = args.buildId ∧ row.schema_tables = args.schemaTables))
    (hcache : st.cacheTables.find? (fun c => c.1 == args.buildId) = none) :
    setup now args st =
      (createTables args.nsName args.buildId args.schemaTables
        (setLockRow
          { nsName := args.nsName, is_locked := 1, heartbeat_at := now,
            build_id := args.buildId, finalized_checkpoint := zeroCheckpoint,
            schema_tables := args.schemaTables }
          (dropPonderTables row st))).map (fun st2 => (zeroCheckpoint, st2)) := by
  unfold setup
  split
  · rename_i heq
    rw [hfind] at heq
    simp at heq
  · rename_i row2 heq
    rw [hfind] at heq
    injection heq with h2
    subst h2
    rw [if_neg hstale, if_neg hdiff, hcache]

theorem setup_lock_row (now : Nat) (args : SetupArgs) (st : DatabaseState)
    (cp : Checkpoint) (st2 : DatabaseState)
    (h : setup now args st = Except.ok (cp, st2)) :
    ∃ row, findLockRow args.nsName st2 = some row ∧ row.is_locked = 1 ∧
      row.nsName = args.nsName := by
  unfold setup at h
  split at h
  · obtain ⟨stc, hct, hfb⟩ := except_map_ok h
    simp only [Prod.mk.injEq] at hfb
    obtain ⟨hcp, hst⟩ := hfb
    subst hst
    have hlocks := createTables_locks _ _ _ _ _ hct
    refine ⟨{ nsName := args.nsName, is_locked := 1, heartbeat_at := now,
              build_id := args.buildId, finalized_checkpoint := zeroCheckpoint,
              schema_tables := args.schemaTables }, ?_, rfl, rfl⟩
    unfold findLockRow
    rw [hlocks]
    exact lockFind_cons_self _ _ _ rfl
  · rename_i row heq
    split at h
    · simp at h
    · split at h
      · injection h with h2
        simp only [Prod.mk.injEq] at h2
        obtain ⟨hcp, hst⟩ := h2
        subst hst
        have hn : row.nsName = args.nsName := findLockRow_eq_some_nsName _ _ _ heq
        exact ⟨{ row with is_locked := 1, heartbeat_at := now },
          findLockRow_setLockRow args.nsName _ st hn, rfl, hn⟩
      · split at h
        · rename_i centry hcache
          obtain ⟨stc, hct, hfb⟩ := except_map_ok h
          simp only [Prod.mk.injEq] at hfb
          obtain ⟨hcp, hst⟩ := hfb
          subst hst
          have hlocks := createTables_locks _ _ _ _ _ hct
          refine ⟨{ nsName := args.nsName, is_locked := 1, heartbeat_at := now,
                    build_id := args.buildId, finalized_checkpoint := centry.2.2,
                    schema_tables := args.schemaTables }, ?_, rfl, rfl⟩
          unfold findLockRow
          rw [hlocks]
          exact lockFind_cons_self _ _ _ rfl
        · obtain ⟨stc, hct, hfb⟩ := except_map_ok h
          simp only [Prod.mk.injEq] at hfb
          obtain ⟨hcp, hst⟩ := hfb
          subst hst
          have hlocks := createTables_locks _ _ _ _ _ hct
          refine ⟨{ nsName := args.nsName, is_locked := 1, heartbeat_at := now,
                    build_id := args.buildId, finalized_checkpoint := zeroCheckpoint,
                    schema_tables := args.schemaTables }, ?_, rfl, rfl⟩
          unfold findLockRow
          rw [hlocks]
          exact lockFind_cons_self _ _ _ rfl

theorem mem_dropPonderTables (row : NamespaceLockRow) (st : DatabaseState)
    (p : String × String) (hp : p ∈ st.userTables)
    (hfind : findLockRow row.nsName st = some row)
    (hpm : ponderManaged st p.1 p.2 = false) :
    p ∈ (dropPonderTables row st).userTables := by
  unfold dropPonderTables
  simp only [List.mem_filter]
  refine ⟨hp, ?_⟩
  by_cases hns : p.1 = row.nsName
  · unfold ponderManaged at hpm
    rw [hns] at hpm
    split at hpm
    · rename_i row2 heq2
      rw [hfind] at heq2
      injection heq2 with h2
      subst h2
      simp only [Bool.and_eq_false_iff] at hpm
      simp
      rcases hpm with h3 | h3
      · simp at h3
        exact Or.inl (Or.inr h3)
      · simp at h3
        exact Or.inr h3
    · rename_i heq2
      rw [hfind] at heq2
      cases heq2
  · have h3 : (p.1 == row.nsName) = false := by simp [hns]
    simp [h3]

/-! ## Claim theorems -/

/-- C6: the claim states the schema validator accepts a table or column name
iff it matches one-or-more alphanumeric characters.  The source regex
character class [a-z|A-Z|0-9] contains the literal bar character, so the name
consisting of one bar is accepted by validateTableOrColumnName and by the
whole schema validation, although it lies outside the claimed alphanumeric
pattern: the code contradicts the documented intent of rejecting invalid
characters. -/
theorem schema_name_validator_accepts_pipe :
    validateTableOrColumnName "|" = Except.ok () ∧
    isNameCharSpec '|' = false ∧
    schemaValidate
      [("|", SchemaEntry.tableDef
        [("id", { type := "string", references := none, optional := false,
                  list := false })])] = Except.ok () ∧
    validateTableOrColumnName "Pet1" = Except.ok () ∧
    validateTableOrColumnName "a b" =
      Except.error SchemaError.invalidNameCharacter ∧
    validateTableOrColumnName "" = Except.error SchemaError.emptyName :=
  ⟨rfl, rfl, rfl, rfl, rfl, rfl⟩

/-- C7: the claim states schema validation throws on an enum with two equal
values and accepts pairwise-distinct values.  The source tests duplicates with
the JS in operator on a Set, which inspects property keys rather than
membership, so a duplicated ordinary value (SWEET twice) passes validation,
while the singleton list holding the value has (a Set.prototype method name)
is rejected as a duplicate. -/
theorem enum_duplicate_check_never_fires :
    schemaValidate [("Flavor", SchemaEntry.enumDef ["SWEET", "SWEET"])] =
      Except.ok () ∧
    validateEnumValues ["SWEET", "SWEET"] = Except.ok () ∧
    schemaValidate [("Flavor", SchemaEntry.enumDef ["has"])] =
      Except.error SchemaError.enumDuplicateValues :=
  ⟨rfl, rfl, rfl⟩

/-- C8: the claim states a failed initial build shuts down with exit code 1
and the reason string of a failed initial build without starting the indexing
engine.  The embedded start flow does exit with code 1 and never starts run,
but the reason string literal in the source is misspelled (Failed intial
build), diverging from the correctly spelled string the specification and the
adjacent source comment use. -/
theorem start_failed_build_shutdown :
    (start 20 0 BuildStatus.failure).exitCode = some 1 ∧
    (start 20 0 BuildStatus.failure).shutdownReason =
      some "Failed intial build" ∧
    (start 20 0 BuildStatus.failure).runStarted = false ∧
    (start 20 0 BuildStatus.failure).buildServiceCreated = true ∧
    (start 20 0 BuildStatus.failure).shutdownReason ≠
      some "Failed initial build" := by
  refine ⟨rfl, rfl, rfl, rfl, ?_⟩
  decide

/-- C9: every address field written to the sync store is normalized to
lower case: the conversion functions lower-case the block miner, the
transaction from and to, the receipt from, to and contractAddress, and the
log address, so no converted row carries an ASCII upper-case (checksummed)
address character. -/
theorem sync_store_addresses_lowercased (b : RpcBlock) (tx : RpcTransaction)
    (rc : RpcTransactionReceipt) (lg : RpcLog) :
    isLowerCased (rpcToSqliteBlock b).miner = true ∧
    isLowerCased (rpcToSqliteTransaction tx).fromAddress = true ∧
    optIsLowerCased (rpcToSqliteTransaction tx).toAddress = true ∧
    isLowerCased (rpcToSqliteTransactionReceipt rc).fromAddress = true ∧
    optIsLowerCased (rpcToSqliteTransactionReceipt rc).toAddress = true ∧
    optIsLowerCased (rpcToSqliteTransactionReceipt rc).contractAddress = true ∧
    isLowerCased (rpcToSqliteLog lg).address = true := by
  refine ⟨?_, ?_, ?_, ?_, ?_, ?_, ?_⟩ <;>
    first
      | exact isLowerCased_toLowerCase _
      | exact optIsLowerCased_jsCond_toLowerCase _

/-- C10: start refuses to run on an unsupported Node.js runtime: when the
major version is below 18, or it is 18 with minor below 14, a fatal error is
logged and the process exits with code 1 before the build service is created
or the engine is started. -/
theorem start_rejects_old_node_version (major minor : Nat) (status : BuildStatus)
    (h : major < 18 ∨ (major = 18 ∧ minor < 14)) :
    (start major minor status).fatalLogged = true ∧
    (start major minor status).exitCode = some 1 ∧
    (start major minor status).buildServiceCreated = false ∧
    (start major minor status).runStarted = false := by
  have hb : nodeVersionTooLow major minor = true := by
    rcases h with h | ⟨h1, h2⟩
    · simp [nodeVersionTooLow, h]
    · simp [nodeVersionTooLow, h1, h2]
  simp [start, hb]

/-- Witness for the Node.js version guard at the concrete boundary version
18.13. -/
theorem start_rejects_old_node_version_witness :
    (18 < 18 ∨ (18 = 18 ∧ 13 < 14)) ∧
    ((start 18 13 BuildStatus.success).fatalLogged = true ∧
     (start 18 13 BuildStatus.success).exitCode = some 1 ∧
     (start 18 13 BuildStatus.success).buildServiceCreated = false ∧
     (start 18 13 BuildStatus.success).runStarted = false) :=
  ⟨by decide, start_rejects_old_node_version 18 13 BuildStatus.success (by decide)⟩

/-- C5: for a failing eth_getLogs block-range request, when the external retry
helper reports the error retryable _eth_getLogs issues one recursive request
per proposed sub-range, each carrying the failed request address and topics,
and returns the flattened concatenation of the sub-range results in order; a
non-retryable error is rethrown unchanged. -/
theorem eth_getLogs_range_split {L E : Type}
    (request : GetLogsRawRequest → Except E (List L))
    (retryHelper : GetLogsRawRequest → E → RetryRanges)
    (fuel : Nat) (p : GetLogsRangeParams) (err : E)
    (hfail : request (toRawRequest p) = Except.error err) :
    ((retryHelper (toRawRequest p) err).shouldRetry = true →
      _eth_getLogs request retryHelper (fuel + 1) p =
        (((retryHelper (toRawRequest p) err).ranges).mapM
          (fun r => _eth_getLogs request retryHelper fuel (subRangeParams p r))).map
          List.flatten ∧
      ∀ r : Nat × Nat,
        (subRangeParams p r).address = (toRawRequest p).address ∧
        (subRangeParams p r).topics = (toRawRequest p).topics) ∧
    ((retryHelper (toRawRequest p) err).shouldRetry = false →
      _eth_getLogs request retryHelper (fuel + 1) p = Except.error err) := by
  constructor
  · intro hretry
    constructor
    · simp [_eth_getLogs, hfail, hretry]
    · intro r
      exact ⟨rfl, rfl⟩
  · intro hretry
    simp [_eth_getLogs, hfail, hretry]

/-- Witness for the retry recursion on a concrete failing request split into
two sub-ranges whose results are concatenated. -/
theorem eth_getLogs_range_split_witness :
    demoRequest (toRawRequest demoParams) = Except.error () ∧
    (demoRetryHelper (toRawRequest demoParams) ()).shouldRetry = true ∧
    _eth_getLogs demoRequest demoRetryHelper 1 demoParams =
      Except.ok [0, 5, 6, 10] := by
  refine ⟨rfl, rfl, ?_⟩
  have h :=
    ((eth_getLogs_range_split demoRequest demoRetryHelper 0 demoParams ()
      rfl).1 rfl).1
  rw [h]
  rfl

/-- C2: on a fresh database, setup with the Pet/Person schema and build ID abc
returns the zero checkpoint, exposes the user-friendly tables Pet and Person
in the public namespace, and creates the physical tables named by
hash(namespace, buildId, tableName). -/
theorem setup_fresh_database (now : Nat) :
    setup now argsA emptyDatabase = Except.ok (zeroCheckpoint, stAfterA now) ∧
    userTablesIn "public" (stAfterA now) = ["Pet", "Person"] ∧
    (stAfterA now).physicalTables =
      [hashTableName "public" "abc" "Pet", hashTableName "public" "abc" "Person"] :=
  ⟨rfl, rfl, rfl⟩

/-- C1: while instance A holds the namespace lock with a fresh heartbeat
(written at t0, observed at t1 within the lease TTL), a second setup on the
same namespace fails with NamespaceLocked; at t0 + leaseTtl + 1 the heartbeat
has expired, the same call succeeds, and the public namespace then exposes the
new build tables Dog and Apple. -/
theorem namespace_lock_contention (t0 t1 : Nat) (_h0 : t0 ≤ t1)
    (h1 : t1 - t0 ≤ leaseTtl) :
    setup t0 argsA emptyDatabase = Except.ok (zeroCheckpoint, stAfterA t0) ∧
    setup t1 argsB (stAfterA t0) =
      Except.error (SetupError.namespaceLocked "public" (leaseTtl - (t1 - t0))) ∧
    ∃ st2, setup (t0 + leaseTtl + 1) argsB (stAfterA t0) =
        Except.ok (zeroCheckpoint, st2) ∧
      userTablesIn "public" st2 = ["Dog", "Apple"] := by
  refine ⟨rfl, ?_, ?_⟩
  · have hfind : findLockRow argsB.nsName (stAfterA t0) = some (lockRowA t0) := rfl
    have h2 := setup_locked t1 argsB (stAfterA t0) (lockRowA t0) hfind rfl
      (by simpa [lockRowA] using h1)
    simpa [lockRowA, argsB] using h2
  · have hfind : findLockRow argsB.nsName (stAfterA t0) = some (lockRowA t0) := rfl
    have hstale : ¬ ((lockRowA t0).is_locked = 1 ∧
        (t0 + leaseTtl + 1) - (lockRowA t0).heartbeat_at ≤ leaseTtl) := by
      intro hc
      have h3 := hc.2
      simp only [lockRowA, leaseTtl] at h3
      omega
    have hdiff : ¬ ((lockRowA t0).build_id = argsB.buildId ∧
        (lockRowA t0).schema_tables = argsB.schemaTables) := by
      intro hc
      have h3 := hc.1
      simp only [lockRowA, argsB] at h3
      exact absurd h3 (by decide)
    have hcache : (stAfterA t0).cacheTables.find?
        (fun c => c.1 == argsB.buildId) = none := rfl
    have hsetup := setup_expired_fresh (t0 + leaseTtl + 1) argsB (stAfterA t0)
      (lockRowA t0) hfind hstale hdiff hcache
    refine ⟨stAfterB (t0 + leaseTtl + 1), ?_, rfl⟩
    rw [hsetup]
    rfl

/-- Witness for the lock-contention scenario at concrete times: the lock was
written at time 0, the contending setup at time 1000 fails with the remaining
lease of 59000 milliseconds. -/
theorem namespace_lock_contention_witness :
    ((0 : Nat) ≤ 1000 ∧ (1000 : Nat) - 0 ≤ leaseTtl) ∧
    setup 1000 argsB (stAfterA 0) =
      Except.error
        (SetupError.namespaceLocked "public" (leaseTtl - ((1000 : Nat) - 0))) :=
  ⟨⟨by decide, by decide⟩,
    (namespace_lock_contention 0 1000 (by decide) (by decide)).2.1⟩

/-- C3: setup never drops tables it did not create: every user-namespace
table that is not Ponder-managed (not matched by the hash-name pattern and
the lock-row metadata) is still present after any successful setup, and when
the prior lock row carries a different build ID the new build tables are
created alongside. -/
theorem setup_preserves_foreign_tables (now : Nat) (args : SetupArgs)
    (st : DatabaseState) (cp : Checkpoint) (st2 : DatabaseState)
    (h : setup now args st = Except.ok (cp, st2)) :
    (∀ p ∈ st.userTables, ponderManaged st p.1 p.2 = false → p ∈ st2.userTables) ∧
    (∀ row, findLockRow args.nsName st = some row → row.build_id ≠ args.buildId →
      ∀ t ∈ args.schemaTables, (args.nsName, t) ∈ st2.userTables) := by
  unfold setup at h
  split at h
  · obtain ⟨stc, hct, hfb⟩ := except_map_ok h
    simp only [Prod.mk.injEq] at hfb
    obtain ⟨hcp, hst⟩ := hfb
    subst hst
    constructor
    · intro p hp hpm
      exact createTables_mem _ _ _ _ _ _ hct hp
    · intro row hfind hdiff t ht
      exact createTables_creates _ _ _ _ _ hct t ht
  · rename_i row heq
    split at h
    · simp at h
    · split at h
      · rename_i hsame
        injection h with h2
        simp only [Prod.mk.injEq] at h2
        obtain ⟨hcp, hst⟩ := h2
        subst hst
        constructor
        · intro p hp hpm
          exact hp
        · intro row2 hfind2 hdiff t ht
          rw [heq] at hfind2
          injection hfind2 with h3
          subst h3
          exact absurd hsame.1 hdiff
      · split at h
        · rename_i centry hcache
          obtain ⟨stc, hct, hfb⟩ := except_map_ok h
          simp only [Prod.mk.injEq] at hfb
          obtain ⟨hcp, hst⟩ := hfb
          subst hst
          have hn := findLockRow_eq_some_nsName _ _ _ heq
          constructor
          · intro p hp hpm
            refine createTables_mem _ _ _ _ _ _ hct ?_
            exact mem_dropPonderTables row st p hp (by rwa [hn]) hpm
          · intro row2 hfind2 hdiff t ht
            exact createTables_creates _ _ _ _ _ hct t ht
        · obtain ⟨stc, hct, hfb⟩ := except_map_ok h
          simp only [Prod.mk.injEq] at hfb
          obtain ⟨hcp, hst⟩ := hfb
          subst hst
          have hn := findLockRow_eq_some_nsName _ _ _ heq
          constructor
          · intro p hp hpm
            refine createTables_mem _ _ _ _ _ _ hct ?_
            exact mem_dropPonderTables row st p hp (by rwa [hn]) hpm
          · intro row2 hfind2 hdiff t ht
            exact createTables_creates _ _ _ _ _ hct t ht

/-- Witness for the preservation theorem on the concrete scenario: after the
abc build is killed and two foreign tables are created externally, a setup of
build def keeps both foreign tables, and the public listing ends as in the
source test. -/
theorem setup_preserves_foreign_tables_witness :
    setup 5 argsB stScenario = Except.ok (zeroCheckpoint, stScenarioAfter) ∧
    ("public", "not_a_ponder_table") ∈ stScenario.userTables ∧
    ponderManaged stScenario "public" "not_a_ponder_table" = false ∧
    ("public", "AnotherTable") ∈ stScenario.userTables ∧
    ponderManaged stScenario "public" "AnotherTable" = false ∧
    ("public", "not_a_ponder_table") ∈ stScenarioAfter.userTables ∧
    ("public", "AnotherTable") ∈ stScenarioAfter.userTables ∧
    userTablesIn "public" stScenarioAfter =
      ["not_a_ponder_table", "AnotherTable", "Dog", "Apple"] := by
  have h :=
    (setup_preserves_foreign_tables 5 argsB stScenario zeroCheckpoint
      stScenarioAfter rfl).1
  refine ⟨rfl, by decide, rfl, by decide, rfl, ?_, ?_, rfl⟩
  · exact h ("public", "not_a_ponder_table") (by decide) rfl
  · exact h ("public", "AnotherTable") (by decide) rfl

/-- C4: after a successful setup the namespace lock row carries is_locked = 1,
and after kill the same row carries is_locked = 0: the lock is released. -/
theorem kill_releases_lock (now : Nat) (args : SetupArgs) (st : DatabaseState)
    (cp : Checkpoint) (st2 : DatabaseState)
    (h : setup now args st = Except.ok (cp, st2)) :
    ∃ row, findLockRow args.nsName st2 = some row ∧ row.is_locked = 1 ∧
      findLockRow args.nsName (kill args.nsName st2) =
        some { row with is_locked := 0 } := by
  obtain ⟨row, hfind, hlock, hn⟩ := setup_lock_row now args st cp st2 h
  refine ⟨row, hfind, hlock, ?_⟩
  unfold kill
  split
  · rename_i row2 heq
    rw [hfind] at heq
    injection heq with h2
    subst h2
    exact findLockRow_setLockRow args.nsName _ st2 hn
  · rename_i heq
    rw [hfind] at heq
    cases heq

/-- Witness for the lock release: the concrete setup at time 0 leaves the
public lock row locked, and kill flips it to unlocked. -/
theorem kill_releases_lock_witness :
    setup 0 argsA emptyDatabase = Except.ok (zeroCheckpoint, stAfterA 0) ∧
    findLockRow "public" (stAfterA 0) = some (lockRowA 0) ∧
    (lockRowA 0).is_locked = 1 ∧
    findLockRow "public" (kill "public" (stAfterA 0)) =
      some { lockRowA 0 with is_locked := 0 } := by
  obtain ⟨row, h1, h2, h3⟩ :=
    kill_releases_lock 0 argsA emptyDatabase zeroCheckpoint (stAfterA 0) rfl
  have h4 : some row = some (lockRowA 0) := by
    rw [← h1]
    rfl
  injection h4 with h5
  subst h5
  exact ⟨rfl, h1, h2, h3⟩
